import Mathlib

/-!
Verification development for the shoyu circuit-pool manager.

The definitions below are shallow embeddings of the Python source:
* `retryRun` embeds `shoyu.utils.decorators.retry` / `async_retry`
  (both share the identical decision logic, per the source).
* `searchOnce` embeds the body of `WebSearch.search` (`shoyu/search/sync.py`),
  with the caller operation abstracted as an `Except` value and sleeps omitted.
* `launchTorDaemonOnce` embeds `launch_tor_daemon` (`shoyu/tor/process.py`),
  recording an event trace (spawn / terminate / raise).
* `authenticate` embeds `TorController.authenticate` (`shoyu/tor/controller.py`).
* `throttleSleep` embeds the throttle block of `WebSearch.search`, over `ℚ`.
* `circuitId` / pool definitions embed `create_tor_pool` (`shoyu/search/pool.py`).
* `cycleSelections` embeds the `itertools.cycle` round-robin of `Shoyu.search`.

Python exceptions are modelled by `ExcInfo`: `kind` is the exception class
name, `isCore` says whether the class derives from `CoreError`, and `msg` is
the exception's textual rendering (`str(e)`).
-/

/-- Model of a Python exception instance: class name, whether it is a
`CoreError` subclass, and its textual content `str(e)`. -/
structure ExcInfo where
  kind : String
  isCore : Bool
  msg : String
deriving DecidableEq

/-- The textual rendering `str(e)` of an exception. -/
def strOf (e : ExcInfo) : String := e.msg

/- String helpers (kernel-reducible replacements for `startswith` / `in` /
`strip` on Python strings). -/

/-- `listStartsWith p s` : the char list `s` starts with `p`. -/
def listStartsWith : List Char → List Char → Bool
  | [], _ => true
  | _ :: _, [] => false
  | p :: ps, c :: cs => p == c && listStartsWith ps cs

/-- Auxiliary scan: does some suffix of the char list start with `pat`? -/
def auxHasSub (pat : List Char) : List Char → Bool
  | [] => pat.isEmpty
  | c :: cs => listStartsWith pat (c :: cs) || auxHasSub pat cs

/-- Python `pat in s` on strings. -/
def strHasSub (s pat : String) : Bool := auxHasSub pat.data s.data

/-- Python `s.startswith(pre)`. -/
def strStartsWith (s pre : String) : Bool := listStartsWith pre.data s.data

/-- A whitespace character (as stripped by Python `str.strip`). -/
def isSpaceChar (c : Char) : Bool := c == ' ' || c == '\t' || c == '\n' || c == '\r'

/-- Python `s.strip()`. -/
def strTrim (s : String) : String :=
  String.mk (((s.data.dropWhile isSpaceChar).reverse.dropWhile isSpaceChar).reverse)

/-- The empty string. -/
def emptyStr : String := ""

/-- A single-quote character as a string (used in source format strings). -/
def quoteStr : String := String.mk [Char.ofNat 39]

/- Exception class names appearing in the modelled code paths. -/

def kTorError : String := "TorError"
def kTorConnectionError : String := "TorConnectionError"
def kTorAuthenticationError : String := "TorAuthenticationError"
def kSearchFailedError : String := "SearchFailedError"
def kSearchClientNotInitializedError : String := "SearchClientNotInitializedError"

/- ------------------------------------------------------------------ -/
/- Retry decorator: `shoyu/utils/decorators.py`, `retry` lines 42-66 and
`async_retry` lines 100-124 (identical decision logic). -/

/-- Result of running a wrapped operation to completion: the value returned,
the single exception finally raised, or `swallowed` when the wrapper falls
off the loop and returns `None`. -/
inductive RetryOutcome (α : Type) where
  | ok (a : α)
  | raised (e : ExcInfo)
  | swallowed
deriving DecidableEq

/-- `raise SearchFailedError(str(e)) from e` unless `e` is already a
`CoreError`, which is re-raised unchanged (decorators.py lines 55-58). -/
def wrapRetryError (e : ExcInfo) : ExcInfo :=
  if e.isCore then e else { kind := kSearchFailedError, isCore := true, msg := strOf e }

/-- One pass of the `for i in range(max_retries)` loop of the decorator.
`f i` is the `i`-th invocation of the wrapped function (`.ok` = returned,
`.error` = raised); `nonRetry` is the tuple of non-retryable exception
classes, each modelled as the `isinstance` test it induces.  Returns the
outcome together with the number of invocations of `f` performed. -/
def retryAux (k : Nat) (raises : Bool) (nonRetry : List (ExcInfo → Bool))
    {α : Type} (f : Nat → Except ExcInfo α) : Nat → Nat → RetryOutcome α × Nat
  | _, 0 => (.swallowed, 0)
  | i, fuel + 1 =>
    match f i with
    | .ok a => (.ok a, 1)
    | .error e =>
      if ((i == k - 1) || (!nonRetry.isEmpty && nonRetry.any fun p => p e)) && raises then
        (.raised (wrapRetryError e), 1)
      else
        let r := retryAux k raises nonRetry f (i + 1) fuel
        (r.1, r.2 + 1)

/-- The decorated function: run the loop from attempt `0` with
`max_retries = k` iterations available. -/
def retryRun (k : Nat) (raises : Bool) (nonRetry : List (ExcInfo → Bool))
    {α : Type} (f : Nat → Except ExcInfo α) : RetryOutcome α × Nat :=
  retryAux k raises nonRetry f 0 k

/- ------------------------------------------------------------------ -/
/- Circuit model: body of `WebSearch.search` (`shoyu/search/sync.py` lines
123-167) and `WebSearch._rotate_identity` (lines 205-221).  The caller
operation (the `ddgs.text` call plus result parsing) is abstracted as an
`Except` value; throttling sleeps and randomized delays do not affect the
state components tracked here and are omitted.  `rotations` is a ghost
counter of identity-rotation control calls (`controller.new_identity()`). -/

/-- Mutable per-circuit state of a `WebSearch` instance, plus the ghost
rotation counter. -/
structure CircuitSt where
  queryCounter : Nat
  maxQueries : Nat
  rotations : Nat
  ddgsInit : Bool
deriving DecidableEq

/-- Outcome of one `search` body execution: a value returned or an
exception propagated to the caller. -/
inductive SearchOutcome (α : Type) where
  | ok (a : α)
  | raised (e : ExcInfo)
deriving DecidableEq

def msgRotationFailed : String := "Identity rotation failed"
def msgNotInitialized : String := "Search client not initialized"
def msgSearchFailedPre : String := "Search failed for query "
def sepColonSpace : String := ": "
def s403 : String := "403"
def s250 : String := "250"

/-- `WebSearch._rotate_identity`: send `SIGNAL NEWNYM`; on success reset
`_query_counter` to 0 and re-create the DDGS client; on failure wrap into
`TorError`.  `rotationOk` abstracts whether the control call succeeds. -/
def rotateIdentity (rotationOk : Bool) (st : CircuitSt) : Except ExcInfo CircuitSt :=
  if rotationOk then
    .ok { st with queryCounter := 0, rotations := st.rotations + 1, ddgsInit := true }
  else
    .error { kind := kTorError, isCore := true, msg := msgRotationFailed }

/-- The text of `f"Search failed for query '{query}': {e}"`. -/
def searchFailMsg (query : String) (e : ExcInfo) : String :=
  msgSearchFailedPre ++ quoteStr ++ query ++ quoteStr ++ sepColonSpace ++ strOf e

/-- The `SearchFailedError` raised by the `except` block of
`WebSearch.search` (sync.py line 167). -/
def searchFailExc (query : String) (e : ExcInfo) : ExcInfo :=
  { kind := kSearchFailedError, isCore := true, msg := searchFailMsg query e }

/-- Body of `WebSearch.search` for one invocation: the not-initialized
guard, the caller operation `op`, the success path (increment counter,
rotate at the threshold), and the failure path (rotate on a `"403"`
marker in the error text, then raise `SearchFailedError` wrapping the
original error). -/
def searchOnce {α : Type} (query : String) (op : Except ExcInfo α)
    (rotationOk : Bool) (st : CircuitSt) : SearchOutcome α × CircuitSt :=
  if !st.ddgsInit then
    (.raised { kind := kSearchClientNotInitializedError, isCore := true,
               msg := msgNotInitialized }, st)
  else
    match op with
    | .ok res =>
      let st1 : CircuitSt := { st with queryCounter := st.queryCounter + 1 }
      if st1.queryCounter ≥ st1.maxQueries then
        match rotateIdentity rotationOk st1 with
        | .ok st2 => (.ok res, st2)
        | .error e => (.raised e, st1)
      else
        (.ok res, st1)
    | .error e =>
      if strHasSub (strOf e) s403 then
        match rotateIdentity rotationOk st with
        | .ok st2 => (.raised (searchFailExc query e), st2)
        | .error e2 => (.raised e2, st)
      else
        (.raised (searchFailExc query e), st)

def sQuery : String := "query"

/-- One successful caller operation on a circuit (rotation control calls
succeeding), as performed by `WebSearch.search`. -/
def successStep (st : CircuitSt) : CircuitSt :=
  (searchOnce (α := Unit) sQuery (Except.ok ()) true st).2

/-- `m` successful operations in sequence on the same circuit. -/
def runSuccesses : Nat → CircuitSt → CircuitSt
  | 0, st => st
  | m + 1, st => runSuccesses m (successStep st)

/-- A freshly constructed `WebSearch` circuit with
`max_queries_per_identity = m` (`__init__`, sync.py lines 72-88). -/
def initCircuit (m : Nat) : CircuitSt :=
  { queryCounter := 0, maxQueries := m, rotations := 0, ddgsInit := true }

/- ------------------------------------------------------------------ -/
/- Daemon launch: `launch_tor_daemon` (`shoyu/tor/process.py` lines 12-94),
a single attempt of the `@retry`-decorated body, recording an event trace. -/

/-- The environment a launch attempt observes: `shutil.which("tor")`,
whether the spawned process exits immediately, whether the control port
becomes connectable within the timeout, and the captured output. -/
structure TorEnv where
  torExecutable : Option String
  earlyExit : Bool
  earlyStdout : String
  earlyStderr : String
  portOpens : Bool
  exitedAfterTerminate : Bool
  finalStdout : String
  finalStderr : String
deriving DecidableEq

/-- Observable events of a launch attempt, in order. -/
inductive LaunchEvent where
  | spawn
  | terminateTree
  | raiseErr (kind : String)
  | success
deriving DecidableEq

def msgTorNotFound : String := "Tor executable not found in PATH. Please install Tor."
def msgUnknownError : String := "Unknown error"
def msgFailedToStart : String := "Tor daemon failed to start: "
def msgStartupTimeout : String := "Tor startup timeout after 10s"
def sepStderr : String := "\nStderr: "
def sepStdout : String := "\nStdout: "

/-- The message built after a startup timeout (process.py lines 86-90):
`"Tor startup timeout after 10s"` plus the stripped captured stderr and
stdout when non-empty. -/
def timeoutMsg (stderr stdout : String) : String :=
  let m := msgStartupTimeout
  let m := if stderr = emptyStr then m else m ++ sepStderr ++ strTrim stderr
  if stdout = emptyStr then m else m ++ sepStdout ++ strTrim stdout

/-- The `TorConnectionError` raised after a startup timeout. -/
def timeoutExc (stderr stdout : String) : ExcInfo :=
  { kind := kTorConnectionError, isCore := true, msg := timeoutMsg stderr stdout }

/-- One attempt of the body of `launch_tor_daemon`: resolve the executable
(raise `TorError` if absent, before any spawn), spawn, surface an early
exit with captured output, poll the control port, and on timeout terminate
the process tree and then raise `TorConnectionError` with captured output
(output is captured by `communicate()` only when the process is observed
exited, which `terminate_process_tree` ensures by waiting). -/
def launchTorDaemonOnce (env : TorEnv) : Except ExcInfo Unit × List LaunchEvent :=
  match env.torExecutable with
  | none =>
    (.error { kind := kTorError, isCore := true, msg := msgTorNotFound },
     [.raiseErr kTorError])
  | some _ =>
    if env.earlyExit then
      let base := if env.earlyStderr = emptyStr then msgUnknownError
                  else strTrim env.earlyStderr
      let base := if env.earlyStdout = emptyStr then base
                  else base ++ sepStdout ++ strTrim env.earlyStdout
      (.error { kind := kTorError, isCore := true, msg := msgFailedToStart ++ base },
       [.spawn, .raiseErr kTorError])
    else if env.portOpens then
      (.ok (), [.spawn, .success])
    else
      let capOut := if env.exitedAfterTerminate then env.finalStdout else emptyStr
      let capErr := if env.exitedAfterTerminate then env.finalStderr else emptyStr
      (.error (timeoutExc capErr capOut),
       [.spawn, .terminateTree, .raiseErr kTorConnectionError])

/-- The decorated launch: `@retry(max_retries=3, sleep_time=2,
exponential_backoff=True)` with default `raises_on_exception=True` and an
empty `non_retry_exceptions` tuple, applied to the (deterministic) body. -/
def launchTorDaemonRetried (env : TorEnv) : RetryOutcome Unit × Nat :=
  retryRun 3 true [] (fun _ => (launchTorDaemonOnce env).1)

/- ------------------------------------------------------------------ -/
/- Control protocol client: `TorController.authenticate`
(`shoyu/tor/controller.py` lines 72-103). -/

/-- The per-session state machine flags of a `TorController`. -/
structure ControllerSt where
  connected : Bool
  authenticated : Bool
deriving DecidableEq

/-- Upper-case hex digit (0-15). -/
def hexDigitUpper (d : Nat) : Char :=
  match d with
  | 0 => '0' | 1 => '1' | 2 => '2' | 3 => '3' | 4 => '4'
  | 5 => '5' | 6 => '6' | 7 => '7' | 8 => '8' | 9 => '9'
  | 10 => 'A' | 11 => 'B' | 12 => 'C' | 13 => 'D' | 14 => 'E' | 15 => 'F'
  | _ => '?'

/-- One byte as two upper-case hex characters. -/
def byteToHexUpper (b : Nat) : List Char :=
  [hexDigitUpper (b / 16), hexDigitUpper (b % 16)]

/-- `cookie.hex().upper()`: raw cookie bytes hex-encoded upper-case. -/
def bytesHexUpper (bs : List Nat) : String :=
  String.mk (bs.flatMap byteToHexUpper)

def sAuthenticate : String := "AUTHENTICATE"
def sAuthenticateSp : String := "AUTHENTICATE "
def msgNotConnected : String := "Not connected to Tor"
def msgAuthFailedPre : String := "Authentication failed: "

/-- The `TorAuthenticationError` raised on a non-`250` response
(controller.py line 98). -/
def authFailExc (response : String) : ExcInfo :=
  { kind := kTorAuthenticationError, isCore := true,
    msg := msgAuthFailedPre ++ response }

/-- The command line `authenticate` sends: `AUTHENTICATE <hex>` when the
cookie file exists (its raw bytes given as `some bs`), bare `AUTHENTICATE`
otherwise. -/
def authCommand (cookieBytes : Option (List Nat)) : String :=
  match cookieBytes with
  | some bs => sAuthenticateSp ++ bytesHexUpper bs
  | none => sAuthenticate

/-- `TorController.authenticate`: guard on the socket, send the
authentication command through the transport `respond` (which models
`_send_command` and may itself raise), then require a `250`-prefixed
response.  Returns the result, the new session state, and the list of
commands sent. -/
def authenticate (st : ControllerSt) (cookieBytes : Option (List Nat))
    (respond : String → Except ExcInfo String) :
    Except ExcInfo Unit × ControllerSt × List String :=
  if !st.connected then
    (.error { kind := kTorConnectionError, isCore := true, msg := msgNotConnected },
     st, [])
  else
    let cmd := authCommand cookieBytes
    match respond cmd with
    | .error e => (.error e, st, [cmd])
    | .ok response =>
      if strStartsWith response s250 then
        (.ok (), { st with authenticated := true }, [cmd])
      else
        (.error (authFailExc response), st, [cmd])

/- ------------------------------------------------------------------ -/
/- Throttle: `WebSearch.search` lines 126-131.  Clock values are modelled
as rationals; `sleep` is assumed exact and the statements between the two
`time.time()` reads are assumed instantaneous. -/

/-- The sleep performed by the throttle block given the previous recorded
operation start `last` and the current clock `now`. -/
def throttleSleep (minInterval last now : ℚ) : ℚ :=
  if now - last < minInterval then minInterval - (now - last) else 0

/-- The start time recorded for the operation that follows the throttle
(the second `time.time()` read). -/
def throttledStart (minInterval last now : ℚ) : ℚ :=
  now + throttleSleep minInterval last now

/- ------------------------------------------------------------------ -/
/- Pool construction: `create_tor_pool` (`shoyu/search/pool.py` lines
45-92) and round-robin selection via `itertools.cycle`
(`Shoyu` sync.py lines 275-316, `AsyncShoyu` async_search.py 480-521). -/

/-- Decimal digits of `n`, most significant first (empty for 0);
fuel-based so that it is kernel-reducible. -/
def decDigitsAux : Nat → Nat → List Nat
  | 0, _ => []
  | fuel + 1, n => if n = 0 then [] else decDigitsAux fuel (n / 10) ++ [n % 10]

/-- Decimal digits of `n`, most significant first. -/
def decDigits (n : Nat) : List Nat := decDigitsAux (n + 1) n

/-- Python `f"{n:03d}"` at the digit level: decimal digits zero-padded on
the left to width at least 3. -/
def formatDigits03 (n : Nat) : List Nat :=
  let ds := if n = 0 then [0] else decDigits n
  List.replicate (3 - ds.length) 0 ++ ds

/-- Positional value of a most-significant-first digit list. -/
def digitsVal (l : List Nat) : Nat := l.foldl (fun a d => a * 10 + d) 0

/-- Decimal digit as a character. -/
def digitChar (d : Nat) : Char :=
  match d with
  | 0 => '0' | 1 => '1' | 2 => '2' | 3 => '3' | 4 => '4'
  | 5 => '5' | 6 => '6' | 7 => '7' | 8 => '8' | 9 => '9'
  | _ => '?'

/-- Inverse of `digitChar` on decimal digits. -/
def charDigit (c : Char) : Nat :=
  match c with
  | '0' => 0 | '1' => 1 | '2' => 2 | '3' => 3 | '4' => 4
  | '5' => 5 | '6' => 6 | '7' => 7 | '8' => 8 | '9' => 9
  | _ => 0

def circuitTag : String := "circuit_"

/-- The identity token assigned to the `i`-th circuit:
`f"circuit_{i:03d}"` (pool.py line 71). -/
def circuitId (i : Nat) : String :=
  circuitTag ++ String.mk ((formatDigits03 i).map digitChar)

/-- A circuit instance created by `create_tor_pool`: a `WebSearch`
(`isAsync = false`) or an `AsyncWebSearch` (`isAsync = true`) together
with the identity it was given. -/
structure PoolCircuit where
  isAsync : Bool
  identity : String
deriving DecidableEq

/-- The identity tokens of a pool of `n` circuits. -/
def poolIdentities (n : Nat) : List String := (List.range n).map circuitId

/-- The `sync_searches` list built by `create_tor_pool`. -/
def poolSyncCircuits (n : Nat) : List PoolCircuit :=
  (List.range n).map (fun i => { isAsync := false, identity := circuitId i })

/-- The `async_searches` list built by `create_tor_pool`. -/
def poolAsyncCircuits (n : Nat) : List PoolCircuit :=
  (List.range n).map (fun i => { isAsync := true, identity := circuitId i })

/-- Every circuit instance created by one `create_tor_pool` call. -/
def poolAllCircuits (n : Nat) : List PoolCircuit :=
  poolSyncCircuits n ++ poolAsyncCircuits n

def sCircuit000 : String := "circuit_000"

/-- The circuit returned by the `k`-th `next()` call on
`itertools.cycle(circuits)` (0-based). -/
def cycleSelect {α : Type} (l : List α) (k : Nat) : Option α :=
  l[k % l.length]?

/-- The circuits returned by the first `m` `next()` calls. -/
def cycleSelections {α : Type} (l : List α) (m : Nat) : List (Option α) :=
  (List.range m).map (cycleSelect l)

/- Concrete fixtures used by witnesses and counterexamples. -/

def kValueError : String := "ValueError"
def msgBoom : String := "boom"

/-- A transient non-domain exception (not a `CoreError`). -/
def excTransient : ExcInfo := { kind := kValueError, isCore := false, msg := msgBoom }

/-- The `isinstance` test induced by listing `ValueError` among the
non-retryable exception classes. -/
def nonRetryVal : ExcInfo → Bool := fun e => e.kind == kValueError

/-- A host with no `tor` executable on the search path. -/
def envNoTor : TorEnv :=
  { torExecutable := none, earlyExit := false, earlyStdout := emptyStr,
    earlyStderr := emptyStr, portOpens := false, exitedAfterTerminate := false,
    finalStdout := emptyStr, finalStderr := emptyStr }

def sTorPath : String := "/usr/bin/tor"
def sBootLog : String := "Bootstrapped 5%"

/-- A host where tor spawns but its control port never opens. -/
def envPortTimeout : TorEnv :=
  { torExecutable := some sTorPath, earlyExit := false, earlyStdout := emptyStr,
    earlyStderr := emptyStr, portOpens := false, exitedAfterTerminate := true,
    finalStdout := emptyStr, finalStderr := sBootLog }

def kHTTPError : String := "HTTPError"
def msg403 : String := "HTTP Error 403: Forbidden"

/-- A caller-operation failure whose text carries the block/ban marker. -/
def exc403 : ExcInfo := { kind := kHTTPError, isCore := false, msg := msg403 }

/-- A circuit mid-way through its identity's query budget. -/
def stMidway : CircuitSt :=
  { queryCounter := 5, maxQueries := 15, rotations := 0, ddgsInit := true }

/-- A control cookie of two raw bytes `0x0A 0xFF`. -/
def cookieAB : List Nat := [10, 255]

def sHex0AFF : String := "0AFF"
def resp250 : String := "250 OK"

/-- A transport that answers every command with `250 OK`. -/
def respondOk250 : String → Except ExcInfo String := fun _ => Except.ok resp250

/-- A session in the Connected (not yet authenticated) state. -/
def stConnected : ControllerSt := { connected := true, authenticated := false }

/- ================================================================== -/
/- Theorems. -/

theorem retryAux_all_error {α : Type} (k : Nat) (nonRetry : List (ExcInfo → Bool))
    (f : Nat → Except ExcInfo α) (e : Nat → ExcInfo)
    (hf : ∀ i, f i = .error (e i)) :
    ∀ fuel i, 1 ≤ fuel → i + fuel = k →
      (∃ w, (retryAux k true nonRetry f i fuel).1 = .raised w) ∧
      1 ≤ (retryAux k true nonRetry f i fuel).2 ∧
      (retryAux k true nonRetry f i fuel).2 ≤ fuel := by
  intro fuel
  induction fuel with
  | zero => intro i h1 _; omega
  | succ fuel ih =>
    intro i _ hik
    rw [show retryAux k true nonRetry f i (fuel + 1) =
        (match f i with
        | .ok a => (.ok a, 1)
        | .error e =>
          if ((i == k - 1) || (!nonRetry.isEmpty && nonRetry.any fun p => p e)) && true then
            (.raised (wrapRetryError e), 1)
          else
            let r := retryAux k true nonRetry f (i + 1) fuel
            (r.1, r.2 + 1)) from rfl]
    rw [hf i]
    by_cases hc : ((i == k - 1) || (!nonRetry.isEmpty && nonRetry.any fun p => p (e i))) = true
    · simp only [hc, Bool.true_and, if_pos]
      exact ⟨⟨wrapRetryError (e i), rfl⟩, by omega, by omega⟩
    · simp only [hc, Bool.false_and, if_neg, Bool.false_eq_true, not_false_eq_true]
      have hne : i ≠ k - 1 := by
        intro h
        apply hc
        simp [h]
      have hfuel : 1 ≤ fuel := by omega
      obtain ⟨⟨w, hw⟩, hlo, hhi⟩ := ih (i + 1) hfuel (by omega)
      exact ⟨⟨w, hw⟩, by omega, by omega⟩

/-- C1: wrapping an operation with the retry policy (`max_retries = k`,
`k ≥ 1`, default `raises_on_exception = True`): if every invocation
raises, the operation is invoked at most `k` times and the wrapper ends by
raising (the final error is never swallowed); and if the first raised
exception's type is in the configured non-retryable exception set, the
operation is invoked exactly once. -/
theorem retry_all_failures_raises {α : Type} (k : Nat) (hk : 1 ≤ k)
    (nonRetry : List (ExcInfo → Bool)) (f : Nat → Except ExcInfo α)
    (e : Nat → ExcInfo) (hf : ∀ i, f i = .error (e i)) :
    ((retryRun k true nonRetry f).2 ≤ k ∧
     ∃ w, (retryRun k true nonRetry f).1 = .raised w) ∧
    ((∃ p ∈ nonRetry, p (e 0) = true) → (retryRun k true nonRetry f).2 = 1) := by
  constructor
  · obtain ⟨⟨w, hw⟩, _, hhi⟩ :=
      retryAux_all_error k nonRetry f e hf k 0 hk (by omega)
    exact ⟨hhi, ⟨w, hw⟩⟩
  · rintro ⟨p, hp, hpe⟩
    obtain ⟨k', rfl⟩ : ∃ k', k = k' + 1 := ⟨k - 1, by omega⟩
    show (retryAux (k' + 1) true nonRetry f 0 (k' + 1)).2 = 1
    rw [show retryAux (k' + 1) true nonRetry f 0 (k' + 1) =
        (match f 0 with
        | .ok a => (.ok a, 1)
        | .error e =>
          if ((0 == k' + 1 - 1) ||
              (!nonRetry.isEmpty && nonRetry.any fun q => q e)) && true then
            (.raised (wrapRetryError e), 1)
          else
            let r := retryAux (k' + 1) true nonRetry f 1 k'
            (r.1, r.2 + 1)) from rfl]
    rw [hf 0]
    have hemp : nonRetry.isEmpty = false := by
      cases nonRetry with
      | nil => cases hp
      | cons a l => rfl
    have hany : (nonRetry.any fun q => q (e 0)) = true :=
      List.any_eq_true.mpr ⟨p, hp, hpe⟩
    simp [hemp, hany]

theorem retry_all_failures_raises_witness :
    (retryRun 2 true [nonRetryVal] (fun _ => Except.error excTransient)
      (α := Unit)).2 ≤ 2 ∧
    (retryRun 2 true [nonRetryVal] (fun _ => Except.error excTransient)
      (α := Unit)).2 = 1 := by
  have h := retry_all_failures_raises (α := Unit) 2 (by omega) [nonRetryVal]
    (fun _ => Except.error excTransient) (fun _ => excTransient) (fun _ => rfl)
  exact ⟨h.1.1, h.2 ⟨nonRetryVal, by simp, rfl⟩⟩

theorem retryAux_noraise {α : Type} (k : Nat) (nonRetry : List (ExcInfo → Bool))
    (f : Nat → Except ExcInfo α) (e : Nat → ExcInfo)
    (hf : ∀ i, f i = .error (e i)) :
    ∀ fuel i, retryAux k false nonRetry f i fuel = (.swallowed, fuel) := by
  intro fuel
  induction fuel with
  | zero => intro i; rfl
  | succ fuel ih =>
    intro i
    rw [show retryAux k false nonRetry f i (fuel + 1) =
        (match f i with
        | .ok a => (.ok a, 1)
        | .error e =>
          if ((i == k - 1) ||
              (!nonRetry.isEmpty && nonRetry.any fun q => q e)) && false then
            (.raised (wrapRetryError e), 1)
          else
            let r := retryAux k false nonRetry f (i + 1) fuel
            (r.1, r.2 + 1)) from rfl]
    rw [hf i]
    simp [ih (i + 1)]

/-- C10: with `raises_on_exception=False`, if every invocation raises, the
wrapper raises nothing and returns `None` after the final failed attempt;
exceptions listed in `non_retry_exceptions` do not short-circuit in this
mode and the operation is still invoked the full `max_retries` times,
because the non-retryable check is conjoined with `raises_on_exception`. -/
theorem retry_suppressed_mode {α : Type} (k : Nat)
    (nonRetry : List (ExcInfo → Bool)) (f : Nat → Except ExcInfo α)
    (e : Nat → ExcInfo) (hf : ∀ i, f i = .error (e i)) :
    (retryRun k false nonRetry f).1 = .swallowed ∧
    (retryRun k false nonRetry f).2 = k := by
  show (retryAux k false nonRetry f 0 k).1 = .swallowed ∧
    (retryAux k false nonRetry f 0 k).2 = k
  rw [retryAux_noraise k nonRetry f e hf k 0]
  exact ⟨rfl, rfl⟩

theorem retry_suppressed_mode_witness :
    (retryRun 3 false [nonRetryVal] (fun _ => Except.error excTransient)
      (α := Unit)).1 = RetryOutcome.swallowed ∧
    (retryRun 3 false [nonRetryVal] (fun _ => Except.error excTransient)
      (α := Unit)).2 = 3 :=
  retry_suppressed_mode 3 [nonRetryVal] (fun _ => Except.error excTransient)
    (fun _ => excTransient) (fun _ => rfl)

/-- C5 counterexample: with no tor executable on the path, the decorated
`launch_tor_daemon` invokes its body three times (the `TorError` is
retried by the wrapper, whose `non_retry_exceptions` tuple is empty), so
the launch failure is not immediate and is retried, contradicting the
claim that the failure is not retried by the retry policy. -/
theorem launch_no_executable_retried_counterexample :
    (launchTorDaemonRetried envNoTor).2 = 3 ∧
    ¬ (launchTorDaemonRetried envNoTor).2 = 1 := by
  decide

/-- C5 (amended): if the daemon executable is absent from the search path,
each launch attempt fails with the executable-not-found `TorError` before
any process is spawned; the wrapped launch retries the body the full three
times (the error is not exempted from retry) and then fails permanently by
re-raising that same `TorError` unchanged. -/
theorem launch_no_executable_behavior (env : TorEnv)
    (h : env.torExecutable = none) :
    (launchTorDaemonOnce env).2 = [LaunchEvent.raiseErr kTorError] ∧
    LaunchEvent.spawn ∉ (launchTorDaemonOnce env).2 ∧
    (launchTorDaemonOnce env).1 =
      Except.error { kind := kTorError, isCore := true, msg := msgTorNotFound } ∧
    (launchTorDaemonRetried env).2 = 3 ∧
    (launchTorDaemonRetried env).1 =
      RetryOutcome.raised { kind := kTorError, isCore := true, msg := msgTorNotFound } := by
  have hb : launchTorDaemonOnce env =
      (Except.error { kind := kTorError, isCore := true, msg := msgTorNotFound },
       [LaunchEvent.raiseErr kTorError]) := by
    simp only [launchTorDaemonOnce, h]
  have hr : launchTorDaemonRetried env =
      (RetryOutcome.raised { kind := kTorError, isCore := true, msg := msgTorNotFound },
       3) := by
    show retryRun 3 true [] (fun _ => (launchTorDaemonOnce env).1) = _
    rw [show (fun _ : Nat => (launchTorDaemonOnce env).1) =
        (fun _ : Nat =>
          Except.error (α := Unit)
            { kind := kTorError, isCore := true, msg := msgTorNotFound }) from
      funext fun _ => by rw [hb]]
    decide
  exact ⟨by rw [hb], by rw [hb]; decide, by rw [hb], by rw [hr], by rw [hr]⟩

theorem launch_no_executable_behavior_witness :
    envNoTor.torExecutable = none ∧
    (launchTorDaemonRetried envNoTor).2 = 3 ∧
    LaunchEvent.spawn ∉ (launchTorDaemonOnce envNoTor).2 :=
  ⟨rfl, (launch_no_executable_behavior envNoTor rfl).2.2.2.1,
   (launch_no_executable_behavior envNoTor rfl).2.1⟩

/-- C2 counterexample: a caller operation fails with text containing
`"403"`; the circuit performs exactly one rotation and resets the counter,
but the error finally raised is a fresh `SearchFailedError` wrapping the
original, not the original error re-raised unchanged as the claim states. -/
theorem search_403_not_reraised_counterexample :
    ((searchOnce (α := Unit) sQuery (Except.error exc403) true stMidway).2.rotations = 1 ∧
     (searchOnce (α := Unit) sQuery (Except.error exc403) true stMidway).2.queryCounter = 0) ∧
    ¬ ((searchOnce (α := Unit) sQuery (Except.error exc403) true stMidway).1 =
        SearchOutcome.raised exc403) := by
  decide

/-- C2 (amended): if a call to the caller-supplied work raises an error
whose text contains the block/ban marker `"403"` (and the rotation control
call succeeds), exactly one identity-rotation control call is performed,
`queryCounter` is reset to 0, and a `SearchFailedError` wrapping the
original error (its text embedded in the new message) is raised to the
caller — the circuit never silently swallows the failure, but it does
replace the original exception with the wrapping one. -/
theorem search_403_rotates_and_wraps {α : Type} (query : String)
    (st : CircuitSt) (e : ExcInfo) (hinit : st.ddgsInit = true)
    (h403 : strHasSub (strOf e) s403 = true) :
    (searchOnce (α := α) query (Except.error e) true st).1 =
      SearchOutcome.raised (searchFailExc query e) ∧
    (searchOnce (α := α) query (Except.error e) true st).2.rotations =
      st.rotations + 1 ∧
    (searchOnce (α := α) query (Except.error e) true st).2.queryCounter = 0 := by
  simp [searchOnce, rotateIdentity, hinit, h403]

theorem search_403_rotates_and_wraps_witness :
    stMidway.ddgsInit = true ∧
    strHasSub (strOf exc403) s403 = true ∧
    (searchOnce (α := Unit) sQuery (Except.error exc403) true stMidway).2.rotations =
      stMidway.rotations + 1 :=
  ⟨rfl, by decide,
   (search_403_rotates_and_wraps sQuery stMidway exc403 rfl (by decide)).2.1⟩

theorem successStep_eq (st : CircuitSt) (h : st.ddgsInit = true) :
    successStep st =
      if st.queryCounter + 1 ≥ st.maxQueries then
        { queryCounter := 0, maxQueries := st.maxQueries,
          rotations := st.rotations + 1, ddgsInit := true }
      else
        { st with queryCounter := st.queryCounter + 1 } := by
  simp only [successStep, searchOnce, rotateIdentity, h, Bool.not_true,
    Bool.false_eq_true, if_false, if_true, ge_iff_le]
  split
  · rfl
  · rfl

theorem runSuccesses_reaches_rotation :
    ∀ (k : Nat) (st : CircuitSt), st.ddgsInit = true → 1 ≤ k →
      st.queryCounter + k = st.maxQueries →
      runSuccesses k st =
        { queryCounter := 0, maxQueries := st.maxQueries,
          rotations := st.rotations + 1, ddgsInit := true } := by
  intro k
  induction k with
  | zero => intro st _ h1 _; omega
  | succ k ih =>
    intro st hinit _ hsum
    show runSuccesses k (successStep st) = _
    by_cases hk0 : k = 0
    · subst hk0
      show successStep st = _
      rw [successStep_eq st hinit, if_pos (by omega)]
    · rw [successStep_eq st hinit, if_neg (by omega)]
      exact ih { st with queryCounter := st.queryCounter + 1 } hinit
        (by omega) (by simp; omega)

theorem runSuccesses_succ_right : ∀ (k : Nat) (st : CircuitSt),
    runSuccesses (k + 1) st = successStep (runSuccesses k st) := by
  intro k
  induction k with
  | zero => intro st; rfl
  | succ k ih =>
    intro st
    show runSuccesses (k + 1) (successStep st) = _
    rw [ih]
    rfl

/-- C3 (amended): for every circuit with `maxQueriesPerIdentity = m ≥ 1`,
after exactly `m` successful operations `queryCounter` is 0 and exactly
one rotation has occurred; when `m ≥ 2` the next successful operation does
not trigger another rotation (whereas for `m = 1` every successful
operation rotates, so the original claim's final clause needs `m ≥ 2`). -/
theorem rotation_after_max_queries (m : Nat) (hm : 1 ≤ m) :
    (runSuccesses m (initCircuit m)).queryCounter = 0 ∧
    (runSuccesses m (initCircuit m)).rotations = 1 ∧
    (2 ≤ m →
      (runSuccesses (m + 1) (initCircuit m)).rotations = 1 ∧
      (runSuccesses (m + 1) (initCircuit m)).queryCounter = 1) := by
  have hbase := runSuccesses_reaches_rotation m (initCircuit m) rfl hm
    (by simp [initCircuit])
  refine ⟨by rw [hbase], by rw [hbase]; rfl, ?_⟩
  intro h2
  rw [runSuccesses_succ_right, hbase, successStep_eq _ rfl,
    if_neg (by simp [initCircuit]; omega)]
  exact ⟨rfl, rfl⟩

theorem rotation_after_max_queries_witness :
    (runSuccesses 3 (initCircuit 3)).queryCounter = 0 ∧
    (runSuccesses 3 (initCircuit 3)).rotations = 1 ∧
    (runSuccesses 4 (initCircuit 3)).rotations = 1 := by
  have h := rotation_after_max_queries 3 (by omega)
  exact ⟨h.1, h.2.1, (h.2.2 (by omega)).1⟩

/-- C3 counterexample: with `maxQueriesPerIdentity = 1` (allowed by the
claim, which only requires `m > 0`), after one successful operation the
counter is 0 and one rotation occurred, but the next successful operation
does trigger another rotation, contradicting the claim's final clause. -/
theorem rotation_max_one_rerotates_counterexample :
    (runSuccesses 1 (initCircuit 1)).queryCounter = 0 ∧
    (runSuccesses 1 (initCircuit 1)).rotations = 1 ∧
    (runSuccesses 2 (initCircuit 1)).rotations = 2 ∧
    ¬ (runSuccesses 2 (initCircuit 1)).rotations = 1 := by
  decide

theorem strData_append (s t : String) : (s ++ t).data = s.data ++ t.data := rfl

theorem listStartsWith_append (l m : List Char) :
    listStartsWith l (l ++ m) = true := by
  induction l with
  | nil => rfl
  | cons c cs ih => simp [listStartsWith, ih]

theorem auxHasSub_here (pat rest : List Char) :
    auxHasSub pat (pat ++ rest) = true := by
  cases pat with
  | nil =>
    cases rest with
    | nil => rfl
    | cons c cs => simp [auxHasSub, listStartsWith]
  | cons p ps =>
    simp only [auxHasSub, Bool.or_eq_true]
    exact Or.inl (listStartsWith_append (p :: ps) rest)

theorem auxHasSub_cons (pat : List Char) (c : Char) (s : List Char)
    (h : auxHasSub pat s = true) : auxHasSub pat (c :: s) = true := by
  simp [auxHasSub, h]

theorem auxHasSub_append_left (xs pat s : List Char)
    (h : auxHasSub pat s = true) : auxHasSub pat (xs ++ s) = true := by
  induction xs with
  | nil => exact h
  | cons c cs ih => exact auxHasSub_cons pat c (cs ++ s) ih

theorem strHasSub_of_decomp (s pre pat post : String)
    (h : s = pre ++ pat ++ post) : strHasSub s pat = true := by
  subst h
  show auxHasSub pat.data (pre ++ pat ++ post).data = true
  rw [strData_append, strData_append]
  rw [List.append_assoc]
  exact auxHasSub_append_left _ _ _
    (auxHasSub_here pat.data post.data)

theorem strStartsWith_append (pre rest : String) :
    strStartsWith (pre ++ rest) pre = true := by
  show listStartsWith pre.data (pre ++ rest).data = true
  rw [strData_append]
  exact listStartsWith_append _ _

theorem listStartsWith_refl (l : List Char) : listStartsWith l l = true := by
  have h := listStartsWith_append l []
  rwa [List.append_nil] at h

theorem strStartsWith_data (s pre : String) (l : List Char)
    (h : s.data = pre.data ++ l) : strStartsWith s pre = true := by
  show listStartsWith pre.data s.data = true
  rw [h]
  exact listStartsWith_append _ _

theorem strHasSub_data (s pat : String) (xs ys : List Char)
    (h : s.data = xs ++ (pat.data ++ ys)) : strHasSub s pat = true := by
  show auxHasSub pat.data s.data = true
  rw [h]
  exact auxHasSub_append_left _ _ _ (auxHasSub_here _ _)

theorem timeoutMsg_startsWith (se so : String) :
    strStartsWith (timeoutMsg se so) msgStartupTimeout = true := by
  unfold timeoutMsg
  by_cases h1 : se = emptyStr <;> by_cases h2 : so = emptyStr <;>
    simp only [h1, h2, if_true, if_false, ite_true, ite_false, if_pos, if_neg,
      not_false_eq_true]
  · exact strStartsWith_data _ _ [] (by simp)
  · exact strStartsWith_data _ _ (sepStdout.data ++ (strTrim so).data)
      (by simp [strData_append])
  · exact strStartsWith_data _ _ (sepStderr.data ++ (strTrim se).data)
      (by simp [strData_append])
  · exact strStartsWith_data _ _
      (sepStderr.data ++ ((strTrim se).data ++ (sepStdout.data ++ (strTrim so).data)))
      (by simp [strData_append])

theorem timeoutMsg_carries_stderr (se so : String) (h : se ≠ emptyStr) :
    strHasSub (timeoutMsg se so) (strTrim se) = true := by
  unfold timeoutMsg
  by_cases h2 : so = emptyStr <;>
    simp only [h, h2, if_true, if_false, ite_true, ite_false, if_pos, if_neg,
      not_false_eq_true]
  · exact strHasSub_data _ _ (msgStartupTimeout.data ++ sepStderr.data) []
      (by simp [strData_append])
  · exact strHasSub_data _ _ (msgStartupTimeout.data ++ sepStderr.data)
      (sepStdout.data ++ (strTrim so).data) (by simp [strData_append])

theorem timeoutMsg_carries_stdout (se so : String) (h : so ≠ emptyStr) :
    strHasSub (timeoutMsg se so) (strTrim so) = true := by
  unfold timeoutMsg
  by_cases h1 : se = emptyStr <;>
    simp only [h, h1, if_true, if_false, ite_true, ite_false, if_pos, if_neg,
      not_false_eq_true]
  · exact strHasSub_data _ _ (msgStartupTimeout.data ++ sepStdout.data) []
      (by simp [strData_append])
  · exact strHasSub_data _ _
      (msgStartupTimeout.data ++ sepStderr.data ++ (strTrim se).data ++ sepStdout.data)
      [] (by simp [strData_append])

/-- C6: if the daemon process starts (executable present, no early exit)
but the control port never becomes connectable within the startup timeout,
the launch attempt terminates the spawned process tree and only then
raises a `TorConnectionError` whose message starts with the startup
timeout text and carries the process's captured (stripped) stderr and
stdout when non-empty; the terminate event precedes the raise event in the
attempt's trace. -/
theorem launch_timeout_terminates_then_raises (env : TorEnv) (t : String)
    (hexe : env.torExecutable = some t) (hearly : env.earlyExit = false)
    (hport : env.portOpens = false) (hexit : env.exitedAfterTerminate = true) :
    (launchTorDaemonOnce env).2 =
      [LaunchEvent.spawn, LaunchEvent.terminateTree,
       LaunchEvent.raiseErr kTorConnectionError] ∧
    (launchTorDaemonOnce env).1 =
      Except.error (timeoutExc env.finalStderr env.finalStdout) ∧
    strStartsWith (timeoutMsg env.finalStderr env.finalStdout)
      msgStartupTimeout = true ∧
    (env.finalStderr ≠ emptyStr →
      strHasSub (timeoutMsg env.finalStderr env.finalStdout)
        (strTrim env.finalStderr) = true) ∧
    (env.finalStdout ≠ emptyStr →
      strHasSub (timeoutMsg env.finalStderr env.finalStdout)
        (strTrim env.finalStdout) = true) := by
  have hred : launchTorDaemonOnce env =
      (Except.error (timeoutExc env.finalStderr env.finalStdout),
       [LaunchEvent.spawn, LaunchEvent.terminateTree,
        LaunchEvent.raiseErr kTorConnectionError]) := by
    simp [launchTorDaemonOnce, hexe, hearly, hport, hexit]
  exact ⟨by rw [hred], by rw [hred],
    timeoutMsg_startsWith _ _,
    fun h => timeoutMsg_carries_stderr _ _ h,
    fun h => timeoutMsg_carries_stdout _ _ h⟩

theorem launch_timeout_terminates_then_raises_witness :
    (launchTorDaemonOnce envPortTimeout).2 =
      [LaunchEvent.spawn, LaunchEvent.terminateTree,
       LaunchEvent.raiseErr kTorConnectionError] ∧
    strHasSub (timeoutMsg envPortTimeout.finalStderr envPortTimeout.finalStdout)
      (strTrim envPortTimeout.finalStderr) = true := by
  have h := launch_timeout_terminates_then_raises envPortTimeout sTorPath
    rfl rfl rfl rfl
  exact ⟨h.1, h.2.2.2.1 (by decide)⟩

/-- C7: in the Connected state, `authenticate()` sends exactly one command:
`AUTHENTICATE <hex>` with the credential file's raw bytes hex-encoded
upper-case when the credential file exists, and bare `AUTHENTICATE`
otherwise; given that the transport delivers a response line `r`, the
session becomes Authenticated if and only if `r` starts with `250`, and
any other response raises a `TorAuthenticationError`. -/
theorem authenticate_protocol (st : ControllerSt)
    (cookieBytes : Option (List Nat))
    (respond : String → Except ExcInfo String) (r : String)
    (hconn : st.connected = true) (hnoauth : st.authenticated = false)
    (hresp : respond (authCommand cookieBytes) = Except.ok r) :
    (authenticate st cookieBytes respond).2.2 = [authCommand cookieBytes] ∧
    (∀ bs, cookieBytes = some bs →
      authCommand cookieBytes = sAuthenticateSp ++ bytesHexUpper bs) ∧
    (cookieBytes = none → authCommand cookieBytes = sAuthenticate) ∧
    ((authenticate st cookieBytes respond).2.1.authenticated = true ↔
      strStartsWith r s250 = true) ∧
    (strStartsWith r s250 = false →
      (authenticate st cookieBytes respond).1 = Except.error (authFailExc r)) := by
  have hred : authenticate st cookieBytes respond =
      (if strStartsWith r s250 then
        (Except.ok (), { st with authenticated := true }, [authCommand cookieBytes])
       else
        (Except.error (authFailExc r), st, [authCommand cookieBytes])) := by
    simp [authenticate, hconn, hresp]
  have hb : strStartsWith r s250 = true ∨ strStartsWith r s250 = false := by
    cases strStartsWith r s250 <;> simp
  cases hb with
  | inl hr =>
    rw [hred, if_pos hr]
    exact ⟨rfl, fun bs hbs => by rw [hbs]; rfl, fun hn => by rw [hn]; rfl,
      by simp [hr], fun hf => by simp [hr] at hf⟩
  | inr hr =>
    rw [hred, if_neg (by simp [hr])]
    exact ⟨rfl, fun bs hbs => by rw [hbs]; rfl, fun hn => by rw [hn]; rfl,
      by simp [hr, hnoauth], fun _ => rfl⟩

theorem authenticate_protocol_witness :
    (authenticate stConnected (some cookieAB) respondOk250).2.2 =
      [sAuthenticateSp ++ bytesHexUpper cookieAB] ∧
    bytesHexUpper cookieAB = sHex0AFF ∧
    ((authenticate stConnected (some cookieAB) respondOk250).2.1.authenticated =
        true ↔
      strStartsWith resp250 s250 = true) := by
  have h := authenticate_protocol stConnected (some cookieAB) respondOk250
    resp250 rfl rfl rfl
  refine ⟨?_, by decide, h.2.2.2.1⟩
  rw [h.1, h.2.1 cookieAB rfl]

/-- C8: under the throttle model (exact sleeps, instantaneous statements),
for every valid (non-negative) configured minimum interval, the start of
an operation is never less than `minOperationInterval` after the previous
operation's recorded start; and when the elapsed time is smaller than the
minimum interval, the circuit sleeps exactly the remainder. -/
theorem throttle_enforces_min_interval (minInterval last now : ℚ)
    (hvalid : 0 ≤ minInterval) (hmono : last ≤ now) :
    minInterval ≤ throttledStart minInterval last now - last ∧
    (now - last < minInterval →
      throttleSleep minInterval last now = minInterval - (now - last)) := by
  unfold throttledStart throttleSleep
  constructor
  · split_ifs with h
    · linarith
    · linarith
  · intro h
    rw [if_pos h]

theorem throttle_enforces_min_interval_witness :
    (0 : ℚ) ≤ 1 ∧ (0 : ℚ) ≤ (1 : ℚ) / 4 ∧
    1 ≤ throttledStart 1 0 (1 / 4) - 0 ∧
    throttleSleep 1 0 (1 / 4) = 1 - (1 / 4 - 0) := by
  have h := throttle_enforces_min_interval 1 0 (1 / 4) (by norm_num) (by norm_num)
  exact ⟨by norm_num, by norm_num, h.1, h.2 (by norm_num)⟩

theorem map_getElem_range {α : Type} (l : List α) :
    (List.range l.length).map (fun k => l[k]?) = l.map some := by
  induction l with
  | nil => rfl
  | cons a t ih =>
    rw [List.length_cons, List.range_succ_eq_map, List.map_cons, List.map_map,
      List.map_cons]
    congr 1
    · simp
    · rw [← ih]
      apply List.map_congr_left
      intro k _
      simp only [Function.comp_apply, List.getElem?_cons_succ]

theorem count_some_map {α : Type} [DecidableEq α] (l : List α) (x : α) :
    (l.map some).count (some x) = l.count x := by
  induction l with
  | nil => rfl
  | cons a t ih =>
    by_cases hax : a = x <;> simp [List.count_cons, ih, hax]

theorem cycleSelections_two_rounds {α : Type} (l : List α) (h : l ≠ []) :
    cycleSelections l (2 * l.length) = l.map some ++ l.map some := by
  unfold cycleSelections cycleSelect
  rw [two_mul, List.range_add, List.map_append, List.map_map]
  congr 1
  · rw [← map_getElem_range l]
    apply List.map_congr_left
    intro k hk
    rw [Nat.mod_eq_of_lt (List.mem_range.mp hk)]
  · rw [← map_getElem_range l]
    apply List.map_congr_left
    intro k hk
    simp only [Function.comp_apply]
    rw [Nat.add_mod_left, Nat.mod_eq_of_lt (List.mem_range.mp hk)]

/-- C4: for every pool of `N ≥ 1` circuits, calling the round-robin
selection `2N` times returns the circuit list twice over in its original
order (the same cyclic order both times, wrapping at `N`, skipping
nothing), and hence returns each of the `N` (pairwise distinct) circuits
exactly twice. -/
theorem pool_round_robin {α : Type} [DecidableEq α] (l : List α)
    (h : l ≠ []) (hnd : l.Nodup) :
    cycleSelections l (2 * l.length) = l.map some ++ l.map some ∧
    ∀ x ∈ l, (cycleSelections l (2 * l.length)).count (some x) = 2 := by
  have hmain := cycleSelections_two_rounds l h
  refine ⟨hmain, fun x hx => ?_⟩
  rw [hmain, List.count_append, count_some_map l x,
    List.count_eq_one_of_mem hnd hx]

theorem pool_round_robin_witness :
    cycleSelections ([0, 1, 2] : List Nat) (2 * ([0, 1, 2] : List Nat).length) =
      [some 0, some 1, some 2, some 0, some 1, some 2] ∧
    (cycleSelections ([0, 1, 2] : List Nat)
      (2 * ([0, 1, 2] : List Nat).length)).count (some 1) = 2 := by
  have h := pool_round_robin ([0, 1, 2] : List Nat) (by decide) (by decide)
  exact ⟨by rw [h.1]; rfl, h.2 1 (by decide)⟩

theorem decDigitsAux_foldl (fuel : Nat) :
    ∀ n c, n < fuel →
      (decDigitsAux fuel n).foldl (fun a d => a * 10 + d) c =
        c * 10 ^ (decDigitsAux fuel n).length + n := by
  induction fuel with
  | zero => intro n c h; omega
  | succ fuel ih =>
    intro n c h
    by_cases h0 : n = 0
    · subst h0
      simp [decDigitsAux]
    · rw [show decDigitsAux (fuel + 1) n =
          decDigitsAux fuel (n / 10) ++ [n % 10] from by simp [decDigitsAux, h0]]
      have hdiv : n / 10 < fuel := by
        have hlt : n / 10 < n := Nat.div_lt_self (Nat.pos_of_ne_zero h0) (by omega)
        omega
      rw [List.foldl_append, ih (n / 10) c hdiv]
      simp only [List.foldl_cons, List.foldl_nil, List.length_append,
        List.length_cons, List.length_nil]
      calc (c * 10 ^ (decDigitsAux fuel (n / 10)).length + n / 10) * 10 + n % 10
          = c * (10 ^ (decDigitsAux fuel (n / 10)).length * 10) +
              (10 * (n / 10) + n % 10) := by ring
        _ = c * (10 ^ (decDigitsAux fuel (n / 10)).length * 10) + n := by
              rw [Nat.div_add_mod]
        _ = c * 10 ^ ((decDigitsAux fuel (n / 10)).length + (0 + 1)) + n := by
              rw [pow_succ]

theorem decDigitsAux_lt_ten (fuel : Nat) :
    ∀ n d, d ∈ decDigitsAux fuel n → d < 10 := by
  induction fuel with
  | zero => intro n d hd; cases hd
  | succ fuel ih =>
    intro n d hd
    by_cases h0 : n = 0
    · subst h0; simp [decDigitsAux] at hd
    · rw [show decDigitsAux (fuel + 1) n =
          decDigitsAux fuel (n / 10) ++ [n % 10] from by simp [decDigitsAux, h0]] at hd
      rcases List.mem_append.mp hd with h1 | h1
      · exact ih (n / 10) d h1
      · rw [List.mem_singleton] at h1
        subst h1
        exact Nat.mod_lt n (by omega)

theorem foldl_replicate_zero (k : Nat) :
    (List.replicate k 0).foldl (fun a d => a * 10 + d) 0 = 0 := by
  induction k with
  | zero => rfl
  | succ k ih => simpa [List.replicate_succ] using ih

theorem digitsVal_formatDigits03 (n : Nat) : digitsVal (formatDigits03 n) = n := by
  by_cases h0 : n = 0
  · subst h0; rfl
  · show (formatDigits03 n).foldl (fun a d => a * 10 + d) 0 = n
    rw [show formatDigits03 n =
        List.replicate (3 - (decDigits n).length) 0 ++ decDigits n from by
      simp [formatDigits03, h0]]
    rw [List.foldl_append, foldl_replicate_zero]
    have h := decDigitsAux_foldl (n + 1) n 0 (by omega)
    rw [show decDigits n = decDigitsAux (n + 1) n from rfl, h]
    simp

theorem formatDigits03_lt_ten (n : Nat) : ∀ d ∈ formatDigits03 n, d < 10 := by
  intro d hd
  by_cases h0 : n = 0
  · subst h0
    rw [show formatDigits03 0 = [0, 0, 0] from rfl] at hd
    simp at hd
    omega
  · rw [show formatDigits03 n =
        List.replicate (3 - (decDigits n).length) 0 ++ decDigits n from by
      simp [formatDigits03, h0]] at hd
    rcases List.mem_append.mp hd with h1 | h1
    · have := List.eq_of_mem_replicate h1
      omega
    · exact decDigitsAux_lt_ten (n + 1) n d h1

theorem charDigit_digitChar (d : Nat) (h : d < 10) :
    charDigit (digitChar d) = d := by
  interval_cases d <;> rfl

theorem map_digitChar_charDigit (l : List Nat) (h : ∀ d ∈ l, d < 10) :
    (l.map digitChar).map charDigit = l := by
  induction l with
  | nil => rfl
  | cons a t ih =>
    simp only [List.map_cons]
    rw [charDigit_digitChar a (h a (List.mem_cons_self a t)),
      ih fun d hd => h d (List.mem_cons_of_mem a hd)]

theorem circuitId_injective : Function.Injective circuitId := by
  intro i j hij
  have h1 : (circuitId i).data = circuitTag.data ++ (formatDigits03 i).map digitChar := by
    rw [circuitId, strData_append]
  have h2 : (circuitId j).data = circuitTag.data ++ (formatDigits03 j).map digitChar := by
    rw [circuitId, strData_append]
  have hdata : circuitTag.data ++ (formatDigits03 i).map digitChar =
      circuitTag.data ++ (formatDigits03 j).map digitChar := by
    rw [← h1, ← h2, hij]
  have hmaps := List.append_cancel_left hdata
  have hdig : formatDigits03 i = formatDigits03 j := by
    have hc := congrArg (List.map charDigit) hmaps
    rwa [map_digitChar_charDigit _ (formatDigits03_lt_ten i),
      map_digitChar_charDigit _ (formatDigits03_lt_ten j)] at hc
  have hv := congrArg digitsVal hdig
  rwa [digitsVal_formatDigits03, digitsVal_formatDigits03] at hv

/-- C9 counterexample: one `create_tor_pool(1)` call creates two distinct
circuit instances — the `WebSearch` and the `AsyncWebSearch` of index 0 —
that concurrently hold the same identity string `"circuit_000"`, so the
pool-wide list of identities is not duplicate-free as the claim states. -/
theorem pool_identity_shared_counterexample :
    (poolAllCircuits 1).map PoolCircuit.identity = [sCircuit000, sCircuit000] ∧
    ¬ ((poolAllCircuits 1).map PoolCircuit.identity).Nodup ∧
    (poolAllCircuits 1).Nodup := by
  decide

/-- C9 (amended): within each of the pool's circuit lists — the sync
`WebSearch` list and the async `AsyncWebSearch` list — identities are
pairwise distinct for every pool size; but pool construction gives the
sync and async instance of each index the same identity string, so an
identity is not unique across the whole set of instances the pool
creates. -/
theorem pool_identities_unique_per_kind (n : Nat) :
    (poolIdentities n).Nodup ∧
    (poolSyncCircuits n).map PoolCircuit.identity = poolIdentities n ∧
    (poolAsyncCircuits n).map PoolCircuit.identity = poolIdentities n := by
  refine ⟨List.Nodup.map circuitId_injective (List.nodup_range n), ?_, ?_⟩
  · simp [poolSyncCircuits, poolIdentities, List.map_map, Function.comp]
  · simp [poolAsyncCircuits, poolIdentities, List.map_map, Function.comp]
